import Mathlib

/-!
Shallow embedding of `config.py` from the repository
`cookiecutter-pypackage-minimal` (template package), together with proofs
about its loader protocol, attribute forwarding and namespace extraction.

The Python `Config` class subclasses `dict`.  A CPython `dict` is an
insertion-ordered mapping with unique keys; `d[k] = v` replaces the value in
place when `k` is present (keeping its position) and appends otherwise.  We
embed a store as an association list with exactly that update rule.

Python exceptions are embedded as an error type and fallible operations
return `Except PyError _`.  Reading or executing external files and reading
environment variables are external effects: they are parameters of the
embedded functions (a `FileSystem` record and an environment lookup), so the
Lean definitions stay pure while following the source line by line.
-/

/-- Dynamically typed configuration values (the subset the claims exercise:
strings, integers, booleans). -/
inductive Value where
  | int (n : Int)
  | str (s : String)
  | bool (b : Bool)
deriving DecidableEq, Repr

/-- A CPython `dict` from string keys to values: insertion-ordered
association list with unique keys maintained by `setItem`. -/
abbrev Store := List (String × Value)

/-- The empty dict (`cls()` / `dict()`). -/
def Store.empty : Store := []

/-- `d[k] = v` on a CPython dict: replace in place if the key is present
(keeping its position), else append at the end. -/
def setItem : Store → String → Value → Store
  | [], k, v => [(k, v)]
  | (a, b) :: t, k, v =>
      if a = k then (a, v) :: t else (a, b) :: setItem t k v

/-- `d.get(k)` / `k in d`-style lookup: first (hence only) binding of `k`. -/
def lookup : Store → String → Option Value
  | [], _ => none
  | (a, b) :: t, k => if a = k then some b else lookup t k

/-- Insert a list of `(key, value)` pairs into a store in iteration order
(the loop `for (key, value) in mapping: self[key] = value`). -/
def insertPairs (s : Store) (l : List (String × Value)) : Store :=
  l.foldl (fun acc kv => setItem acc kv.1 kv.2) s

/-- Embedded Python exceptions raised by `config.py`. -/
inductive PyError where
  /-- `raise Exception(msg)` -/
  | exn (msg : String)
  /-- `raise RuntimeError(msg)` (the spec's `MissingEnvVarError`) -/
  | runtimeError (msg : String)
  /-- `raise TypeError(msg)` (the spec's `TooManyArgumentsError`) -/
  | typeError (msg : String)
  /-- `KeyError` from `dict.__getitem__` (the spec's `MissingKeyError`) -/
  | keyError (k : String)
  /-- `NameError: name '<n>' is not defined` -/
  | nameError (n : String)
  /-- A re-raised `IOError` carrying `errno` and the rewritten `strerror` -/
  | osError (errno : Nat) (strerror : String)
deriving DecidableEq, Repr

/-- `errno.ENOENT` -/
def ENOENT : Nat := 2

/-- `errno.EISDIR` -/
def EISDIR : Nat := 21

/-- Data of a caught `IOError`: `e.errno` and `e.strerror`. -/
structure OSErrorData where
  errno : Nat
  strerror : String
deriving DecidableEq, Repr

/-- External world seen by the file-based loaders.  `pathExists` is
`os.path.exists`.  `execPy p` is the combined effect of
`open(p, 'rb')` + `exec(compile(...))` + enumerating `dir(module)` with
`getattr`: on success it yields the module's attribute list (bound top-level
names plus module attributes such as `__file__`, in `dir` order), on failure
the caught `IOError`.  `readJson p` is `json.loads(open(p).read())` for a
top-level JSON object: the object's key/value pairs, or the caught
`IOError`. -/
structure FileSystem where
  pathExists : String → Bool
  execPy : String → Except OSErrorData (List (String × Value))
  readJson : String → Except OSErrorData (List (String × Value))

/-- What a loader call evaluates to when it does not raise: the literal
`False` (`return False`) or a freshly constructed `Config`
(`cfg = cls(); ...; return cfg`), or the literal `True` for `from_mapping`. -/
inductive LoadOutcome where
  | returnedFalse
  | returnedTrue
  | config (s : Store)
deriving DecidableEq, Repr

/-- `Config.from_object(self, obj)`: `for key in dir(obj): self[key] =
getattr(obj, key)`.  The reflection pair (`dir`, `getattr`) is embedded as
the object's attribute list `attrs` in `dir` order. -/
def from_object (self : Store) (attrs : List (String × Value)) : Store :=
  insertPairs self attrs

/-- One positional argument of `from_mapping`: either an object with an
`items()` method (a mapping, whose `items()` yields its pairs in order) or a
plain iterable of `(key, value)` pairs. -/
inductive Positional where
  | mapping (m : List (String × Value))
  | pairs (l : List (String × Value))
deriving DecidableEq, Repr

/-- `mapping[0].items()` when the argument has `items`, else the iterable
itself. -/
def Positional.items : Positional → List (String × Value)
  | .mapping m => m
  | .pairs l => l

/-- `Config.from_mapping(self, *mapping, **kwargs)` from `config.py`:
collects the single positional argument's pairs (raising `TypeError` when
more than one positional is given), appends `kwargs.items()`, then inserts
every pair in order and returns `True`.  On success the mutated `self` is
returned alongside the Python return value. -/
def from_mapping (self : Store) (mapping : List Positional)
    (kwargs : List (String × Value)) : Except PyError (Store × Bool) :=
  if 1 < mapping.length then
    .error (.typeError
      ("expected at most 1 positional argument, got " ++ toString mapping.length))
  else
    let mappings : List (List (String × Value)) :=
      (mapping.map Positional.items) ++ [kwargs]
    .ok (mappings.foldl insertPairs self, true)

/-- `Config.from_pyfile(cls, filepath, silent=False)` from `config.py`: an
unconditional existence check that raises a bare `Exception`, then execution
of the file with the `IOError` handler, then `cfg = cls();
cfg.from_object(d); return cfg` — a fresh store built from the module's
attributes; the method is a classmethod and touches no pre-existing store. -/
def from_pyfile (fs : FileSystem) (filepath : String) (silent : Bool) :
    Except PyError LoadOutcome :=
  if !(fs.pathExists filepath) then
    .error (.exn (filepath ++ " is not exists"))
  else
    match fs.execPy filepath with
    | .error e =>
        if silent ∧ (e.errno = ENOENT ∨ e.errno = EISDIR) then
          .ok .returnedFalse
        else
          .error (.osError e.errno
            ("Unable to load configuration file (" ++ e.strerror ++ ")"))
    | .ok attrs => .ok (.config (from_object Store.empty attrs))

/-- `Config.from_json(cls, filepath, silent=False)` from `config.py`: same
existence check and `IOError` handler as `from_pyfile`, then `cfg = cls();
cfg.from_mapping(obj); return cfg` with `obj` the parsed JSON object — again
a fresh store, since the method is a classmethod. -/
def from_json (fs : FileSystem) (filepath : String) (silent : Bool) :
    Except PyError LoadOutcome :=
  if !(fs.pathExists filepath) then
    .error (.exn (filepath ++ " is not exists"))
  else
    match fs.readJson filepath with
    | .error e =>
        if silent ∧ (e.errno = ENOENT ∨ e.errno = EISDIR) then
          .ok .returnedFalse
        else
          .error (.osError e.errno
            ("Unable to load configuration file (" ++ e.strerror ++ ")"))
    | .ok obj =>
        match from_mapping Store.empty [Positional.mapping obj] [] with
        | .ok (s, _) => .ok (.config s)
        | .error e => .error e

/-- `Config.from_envvar(self, variable_name, silent=False)` from
`config.py`.  `rv = os.environ.get(variable_name)`; `if not rv` is true for
an unset variable (`None`) and for the empty string.  The method is
decorated `@classmethod` but its first parameter is named `self`, so the
name `cls` in `return cls.from_pyfile(rv, silent=silent)` is unbound
(no local, enclosing, global or builtin binding exists): reaching that line
raises `NameError: name 'cls' is not defined`. -/
def from_envvar (env : String → Option String) (variable_name : String)
    (silent : Bool) : Except PyError LoadOutcome :=
  let rv := env variable_name
  if rv = none ∨ rv = some "" then
    if silent then
      .ok .returnedFalse
    else
      .error (.runtimeError
        ("The environment variable '" ++ variable_name ++ "' is not set "
          ++ "and as such configuration could not be "
          ++ "loaded.  Set this variable and make it "
          ++ "point to a configuration file"))
  else
    .error (.nameError "cls")

/-- Python `s.startswith(p)`, computed structurally on the character lists
(Lean's builtin `String.startsWith` is extensionally the same but its
`Substring` loop does not reduce definitionally). -/
def strStartsWith (s p : String) : Bool := p.data.isPrefixOf s.data

/-- Python `s[n:]`: drop the first `n` characters. -/
def strDrop (s : String) (n : Nat) : String := ⟨s.data.drop n⟩

/-- Python `str.lower()` restricted to ASCII (all keys in this code base are
ASCII; on non-ASCII letters CPython lowercases more, which no claim
exercises). -/
def pyCharLower (c : Char) : Char :=
  if 65 ≤ c.toNat ∧ c.toNat ≤ 90 then Char.ofNat (c.toNat + 32) else c

/-- Python `s.lower()` character by character. -/
def strLower (s : String) : String := ⟨s.data.map pyCharLower⟩

/-- `Config.get_namespace(self, namespace, lowercase=True,
trim_namespace=True)` from `config.py`: iterate the store in order, keep
keys starting with the prefix, trim and lowercase as flagged, and insert
into the fresh dict `rv`. -/
def get_namespace (self : Store) (nspace : String) (lowercase : Bool)
    (trim_namespace : Bool) : Store :=
  self.foldl
    (fun rv kv =>
      if !(strStartsWith kv.1 nspace) then rv
      else
        let key := if trim_namespace then strDrop kv.1 nspace.data.length else kv.1
        let key := if lowercase then strLower key else key
        setItem rv key kv.2)
    []

/-- `ConfigAttribute` from `config.py`: a descriptor holding `__name__` and
an optional `get_converter`. -/
structure ConfigAttribute where
  name : String
  get_converter : Option (Value → Value)

/-- Result of `ConfigAttribute.__get__`: the descriptor itself (class
access) or a value (instance access). -/
inductive GetResult where
  | descriptor (a : ConfigAttribute)
  | value (v : Value)

/-- `ConfigAttribute.__get__(self, obj, type=None)`: `obj is None` returns
the descriptor; otherwise `obj.config[self.__name__]` (raising `KeyError`
when absent, as `dict.__getitem__` does) with the converter applied when
present.  The owning instance is represented by its `config` store. -/
def ConfigAttribute.dunderGet (self : ConfigAttribute) (obj : Option Store) :
    Except PyError GetResult :=
  match obj with
  | none => .ok (.descriptor self)
  | some config =>
      match lookup config self.name with
      | none => .error (.keyError self.name)
      | some rv =>
          .ok (.value (match self.get_converter with
            | some f => f rv
            | none => rv))

/-- `ConfigAttribute.__set__(self, obj, value)`:
`obj.config[self.__name__] = value`, unconverted. -/
def ConfigAttribute.dunderSet (self : ConfigAttribute) (config : Store)
    (value : Value) : Store :=
  setItem config self.name value

/-! ### Helper definitions used only in theorem statements -/

/-- The last binding of `k` in a raw pair list (later pairs shadow earlier
ones when the list is inserted pair by pair). -/
def lookupLast : List (String × Value) → String → Option Value
  | [], _ => none
  | (a, b) :: t, k =>
      match lookupLast t k with
      | some v => some v
      | none => if a = k then some b else none

/-- Left-biased choice on optional values: the overriding layer wins. -/
def overlay (a b : Option Value) : Option Value :=
  match a with
  | some v => some v
  | none => b

/-- One (successful) `from_mapping` call: at most one positional argument
plus keyword overrides. -/
structure MapCall where
  pos : Option Positional
  kw : List (String × Value)

/-- The positional-argument tuple of the call. -/
def MapCall.positionals (c : MapCall) : List Positional :=
  match c.pos with
  | some p => [p]
  | none => []

/-- Run one `from_mapping` call against a store (such calls never raise:
they have at most one positional argument). -/
def applyCall (s : Store) (c : MapCall) : Store :=
  match from_mapping s c.positionals c.kw with
  | .ok (s2, _) => s2
  | .error _ => s

/-- Run a sequence of `from_mapping` calls in order. -/
def runCalls (s : Store) (cs : List MapCall) : Store :=
  cs.foldl applyCall s

/-- The value a single call assigns to `k`, if any: keyword overrides beat
the positional mapping. -/
def MapCall.setsKeyTo (c : MapCall) (k : String) : Option Value :=
  overlay (lookupLast c.kw k)
    (lookupLast (match c.pos with | some p => p.items | none => []) k)

/-- The value assigned to `k` by the last call of the sequence that sets
`k`, if any call does. -/
def lastSet : List MapCall → String → Option Value
  | [], _ => none
  | c :: t, k =>
      match lastSet t k with
      | some v => some v
      | none => c.setsKeyTo k

/-! ### Basic lemmas about the embedded dict operations -/

theorem overlay_none_right (a : Option Value) : overlay a none = a := by
  cases a <;> rfl

theorem overlay_assoc (a b c : Option Value) :
    overlay (overlay a b) c = overlay a (overlay b c) := by
  cases a <;> rfl

theorem lookup_setItem_self (s : Store) (k : String) (v : Value) :
    lookup (setItem s k v) k = some v := by
  induction s with
  | nil => simp [setItem, lookup]
  | cons p t ih =>
    obtain ⟨a, b⟩ := p
    by_cases h : a = k
    · simp [setItem, lookup, h]
    · simp [setItem, lookup, h, ih]

theorem lookup_setItem_ne (s : Store) (k k' : String) (v : Value)
    (h : k' ≠ k) : lookup (setItem s k v) k' = lookup s k' := by
  induction s with
  | nil => simp [setItem, lookup, Ne.symm h]
  | cons p t ih =>
    obtain ⟨a, b⟩ := p
    by_cases hak : a = k
    · subst hak
      simp [setItem, lookup, Ne.symm h]
    · simp [setItem, lookup, hak, ih]

theorem lookup_insertPairs (l : List (String × Value)) (s : Store)
    (k : String) :
    lookup (insertPairs s l) k = overlay (lookupLast l k) (lookup s k) := by
  induction l generalizing s with
  | nil => rfl
  | cons p t ih =>
    obtain ⟨a, b⟩ := p
    show lookup (insertPairs (setItem s a b) t) k = _
    rw [ih]
    cases hlt : lookupLast t k with
    | some v => simp [lookupLast, overlay, hlt]
    | none =>
      by_cases hak : a = k
      · subst hak
        simp [lookupLast, overlay, hlt, lookup_setItem_self]
      · simp [lookupLast, overlay, hlt, hak,
          lookup_setItem_ne s a k b (fun hh => hak hh.symm)]

theorem lookup_applyCall (s : Store) (c : MapCall) (k : String) :
    lookup (applyCall s c) k = overlay (c.setsKeyTo k) (lookup s k) := by
  obtain ⟨pos, kw⟩ := c
  cases pos with
  | none =>
    show lookup (insertPairs s kw) k = _
    rw [lookup_insertPairs]
    simp [MapCall.setsKeyTo, lookupLast, overlay_none_right]
  | some p =>
    show lookup (insertPairs (insertPairs s p.items) kw) k = _
    rw [lookup_insertPairs, lookup_insertPairs]
    simp [MapCall.setsKeyTo, overlay_assoc]

/-! ### Claim theorems -/

/-- C6: `from_mapping` called with two or more positional mapping arguments
fails with `TypeError` (the spec's `TooManyArgumentsError`) whatever the
arguments and keyword overrides contain; the error is raised before any
insertion, so no mutated store is produced and the store is unchanged. -/
theorem from_mapping_two_positionals_raises (self : Store)
    (mapping : List Positional) (kwargs : List (String × Value))
    (h : 1 < mapping.length) :
    from_mapping self mapping kwargs =
      .error (.typeError
        ("expected at most 1 positional argument, got "
          ++ toString mapping.length)) := by
  unfold from_mapping
  rw [if_pos h]

/-- Witness for C6 at a concrete input: two empty positional mappings. -/
theorem from_mapping_two_positionals_raises_witness :
    from_mapping [] [Positional.mapping [], Positional.mapping []] [] =
      .error (.typeError "expected at most 1 positional argument, got 2") :=
  from_mapping_two_positionals_raises []
    [Positional.mapping [], Positional.mapping []] [] (by decide)

/-- C7: last-write-wins.  Over any sequence of successful `from_mapping`
calls, the final value of a key is the value assigned by the last call that
set it (falling back to the original store when no call sets it); and within
a single call with a positional mapping and keyword overrides, the keyword
overrides take precedence over the positional mapping on colliding keys. -/
theorem from_mapping_last_write_wins :
    (∀ (s : Store) (cs : List MapCall) (k : String),
       lookup (runCalls s cs) k = overlay (lastSet cs k) (lookup s k)) ∧
    (∀ (s : Store) (m kw : List (String × Value)) (k : String),
       lookup (applyCall s ⟨some (Positional.mapping m), kw⟩) k =
         overlay (lookupLast kw k) (overlay (lookupLast m k) (lookup s k))) := by
  constructor
  · intro s cs k
    induction cs generalizing s with
    | nil => rfl
    | cons c t ih =>
      show lookup (runCalls (applyCall s c) t) k = _
      rw [ih, lookup_applyCall]
      cases hlt : lastSet t k with
      | some v => simp [lastSet, overlay, hlt]
      | none => simp [lastSet, overlay, hlt]
  · intro s m kw k
    rw [lookup_applyCall]
    simp [MapCall.setsKeyTo, Positional.items, overlay_assoc]

/-- C10: `from_mapping` with exactly one positional argument that has no
`items()` method treats it as an iterable of `(key, value)` pairs: each pair
is inserted in iteration order (a later duplicate overwrites an earlier
one), keyword overrides are applied last, and the call returns `True`. -/
theorem from_mapping_pairs_iterable (self : Store)
    (l kw : List (String × Value)) :
    from_mapping self [Positional.pairs l] kw =
      .ok (insertPairs (insertPairs self l) kw, true) ∧
    ∀ k, lookup (insertPairs (insertPairs self l) kw) k =
      overlay (lookupLast kw k) (overlay (lookupLast l k) (lookup self k)) := by
  refine ⟨rfl, fun k => ?_⟩
  rw [lookup_insertPairs, lookup_insertPairs]

/-- C5: round-trip.  Loading an object whose enumerated attributes are
exactly `A = 1` and `B = "x"` into an empty store via `from_object`, then
querying `get_namespace` with the empty prefix, `lowercase=False` and
`trim_namespace=False`, reproduces exactly the two bindings `A = 1`,
`B = "x"` — no extra keys, no missing keys, values unchanged. -/
theorem from_object_get_namespace_roundtrip :
    get_namespace
      (from_object Store.empty [("A", Value.int 1), ("B", Value.str "x")])
      "" false false
      = [("A", Value.int 1), ("B", Value.str "x")] := by decide

/-- C8: `get_namespace "IMAGE_STORE_"` with the default flags on a store
holding exactly `IMAGE_STORE_TYPE="fs"`, `IMAGE_STORE_PATH="/var/app/images"`
and `OTHER_KEY="x"` returns exactly the mapping `type="fs"`,
`path="/var/app/images"`: only prefixed keys are kept, the prefix is
trimmed, the remainder is lowercased, and `OTHER_KEY` is excluded.  The
result is a freshly built mapping, not a view of the source store. -/
theorem get_namespace_image_store :
    get_namespace
      [("IMAGE_STORE_TYPE", Value.str "fs"),
       ("IMAGE_STORE_PATH", Value.str "/var/app/images"),
       ("OTHER_KEY", Value.str "x")]
      "IMAGE_STORE_" true true
      = [("type", Value.str "fs"), ("path", Value.str "/var/app/images")] := by
  decide

/-- The descriptor of the claim: `ConfigAttribute('DEBUG')`, no converter. -/
def debugAttr : ConfigAttribute := ⟨"DEBUG", none⟩

/-- C9: for a `ConfigAttribute` bound to `"DEBUG"`: reading through an
instance whose store lacks `"DEBUG"` raises `KeyError` (the spec's
`MissingKeyError`); writing `True` through the descriptor stores it
unconverted, so a direct store lookup of `"DEBUG"` then yields `True`; and
accessing the attribute on the class itself (`obj is None`) returns the
descriptor object, not a value. -/
theorem configattribute_debug_forwarding (config : Store) :
    (lookup config "DEBUG" = none →
      debugAttr.dunderGet (some config) = .error (.keyError "DEBUG")) ∧
    lookup (debugAttr.dunderSet config (Value.bool true)) "DEBUG" =
      some (Value.bool true) ∧
    debugAttr.dunderGet none = .ok (.descriptor debugAttr) := by
  refine ⟨fun h => ?_, ?_, rfl⟩
  · simp [ConfigAttribute.dunderGet, debugAttr, h]
  · exact lookup_setItem_self config "DEBUG" (Value.bool true)

/-- Witness for C9 at the empty store. -/
theorem configattribute_debug_forwarding_witness :
    debugAttr.dunderGet (some []) = .error (.keyError "DEBUG") ∧
    lookup (debugAttr.dunderSet [] (Value.bool true)) "DEBUG" =
      some (Value.bool true) :=
  ⟨(configattribute_debug_forwarding []).1 rfl,
   (configattribute_debug_forwarding []).2.1⟩

/-- C3: `from_envvar` on a variable that is unset (`None`) or empty raises
`RuntimeError` (the spec's `MissingEnvVarError`) when `silent=False`, and
returns `False` when `silent=True`.  The method receives no store and the
embedding shows both branches return before any store operation, so the
store is untouched either way. -/
theorem from_envvar_missing_var (env : String → Option String) (v : String)
    (h : env v = none ∨ env v = some "") :
    from_envvar env v false =
      .error (.runtimeError
        ("The environment variable '" ++ v ++ "' is not set "
          ++ "and as such configuration could not be "
          ++ "loaded.  Set this variable and make it "
          ++ "point to a configuration file")) ∧
    from_envvar env v true = .ok .returnedFalse := by
  constructor <;>
    · show (if env v = none ∨ env v = some "" then _ else _) = _
      rw [if_pos h]
      rfl

/-- Witness for C3: the everywhere-unset environment. -/
theorem from_envvar_missing_var_witness :
    from_envvar (fun _ => none) "MISSING_VAR" false =
      .error (.runtimeError
        ("The environment variable 'MISSING_VAR' is not set "
          ++ "and as such configuration could not be "
          ++ "loaded.  Set this variable and make it "
          ++ "point to a configuration file")) ∧
    from_envvar (fun _ => none) "MISSING_VAR" true = .ok .returnedFalse :=
  from_envvar_missing_var (fun _ => none) "MISSING_VAR" (Or.inl rfl)

/-- C4 (counterexample to the claimed delegation): `from_envvar` on a
variable that is set to a non-empty path never reaches `from_pyfile` — the
classmethod's first parameter is named `self`, so the name `cls` in
`cls.from_pyfile(rv, silent=silent)` is unbound and the call raises
`NameError: name 'cls' is not defined`, for either value of `silent`. -/
theorem from_envvar_set_var_nameerror :
    from_envvar (fun _ => some "/etc/app_settings.py") "SETTINGS_VAR" false =
      .error (.nameError "cls") ∧
    from_envvar (fun _ => some "/etc/app_settings.py") "SETTINGS_VAR" true =
      .error (.nameError "cls") := by
  constructor <;> rfl

/-- A file system in which no path exists (every open fails with
`ENOENT`). -/
def fsAllMissing : FileSystem where
  pathExists := fun _ => false
  execPy := fun _ => .error ⟨ENOENT, "No such file or directory"⟩
  readJson := fun _ => .error ⟨ENOENT, "No such file or directory"⟩

/-- C2 (counterexample to the claimed silent/not-found behaviour): on a
nonexistent path both file loaders raise the bare
`Exception('<path> is not exists')` from the unconditional existence check —
with `silent=True` just as with `silent=False` — instead of returning
`False` (silent) or `FileNotFoundError` (non-silent) as the claim states;
the check runs before the `IOError` handler that would honour `silent`. -/
theorem from_pyfile_missing_raises_despite_silent :
    from_pyfile fsAllMissing "missing.py" true =
      .error (.exn "missing.py is not exists") ∧
    from_pyfile fsAllMissing "missing.py" false =
      .error (.exn "missing.py is not exists") ∧
    from_json fsAllMissing "missing.json" true =
      .error (.exn "missing.json is not exists") ∧
    from_json fsAllMissing "missing.json" false =
      .error (.exn "missing.json is not exists") :=
  ⟨rfl, rfl, rfl, rfl⟩

/-- A file system holding one JSON file `cfg.json` with contents
`{"A": 2}`. -/
def fsCfgJson : FileSystem where
  pathExists := fun p => p == "cfg.json"
  execPy := fun _ => .error ⟨ENOENT, "No such file or directory"⟩
  readJson := fun p =>
    if p == "cfg.json" then .ok [("A", Value.int 2)]
    else .error ⟨ENOENT, "No such file or directory"⟩

/-- C1 (counterexample to the claimed in-place update): a successful
`from_json` call builds its result from `cls()` — the empty store — so the
returned configuration holds exactly the file's bindings and nothing else:
a key such as `"KEEP"` held by whatever store the classmethod was invoked
against is absent from the result, and that store itself (which the
classmethod never receives — see the signature of `from_json` and
`from_pyfile`) is not touched. -/
theorem from_json_builds_fresh_store :
    from_json fsCfgJson "cfg.json" false =
      .ok (.config [("A", Value.int 2)]) ∧
    lookup [("A", Value.int 2)] "KEEP" = none :=
  ⟨rfl, rfl⟩
